import Mathlib

/-!
Verification of the issue-lifecycle metrics engine and sprint scoring engine
(`src/metrics_processor.py`, `src/dashboard_calculator.py`, constants from
`src/config.py`).

Embedding conventions:
* A timezone-aware Python `datetime` is embedded as an integer count of
  microseconds on a single timeline (all inputs share one tzinfo, so wall-clock
  arithmetic and aware-datetime arithmetic coincide).  Day numbers are counts
  of civil days with day 0 = 1970-01-01 (a Thursday), so the weekday of day
  `d` in Python's convention (Monday = 0) is `(d + 3) % 7`.
* Python floats are embedded as rationals (`ℚ`); `round(x, n)` is embedded as
  rounding `x * 10^n` to the nearest integer (the half-to-even versus half-up
  difference of float rounding is never exercised by any statement below).
* `datetime.datetime.min` (the sentinel produced for unparsable sprint names)
  is embedded as `Option.none` in the order `SDate := Option ℤ`, with `none`
  below every real date; every date the parser can produce lies in 1969-2068,
  strictly above `datetime.min`, so the orders agree.
-/

/-- Microseconds per civil day. -/
def USEC_PER_DAY : ℤ := 86400000000

/-- Civil day number of a timestamp (`datetime.date()` of an aware datetime). -/
def dayOf (t : ℤ) : ℤ := Int.fdiv t USEC_PER_DAY

/-- Python `weekday()` of a day number: Monday = 0 ... Sunday = 6
(day 0 = 1970-01-01 was a Thursday). -/
def weekdayOfDay (d : ℤ) : ℤ := (d + 3).emod 7

/-- Python `weekday()` of a timestamp. -/
def weekdayOf (t : ℤ) : ℤ := weekdayOfDay (dayOf t)

/-- The `while current_date < end_date` loop of `calculate_business_days`
(src/metrics_processor.py lines 38-45): number of weekdays among the `n`
consecutive days starting at day `sd` (the end date itself is never visited). -/
def countFullWeekdays (sd : ℤ) (n : ℕ) : ℤ :=
  ((List.range n).filter (fun i => decide (weekdayOfDay (sd + (i : ℤ)) < 5))).length

/-- Embedding of `calculate_business_days` (src/metrics_processor.py lines
20-75).  `start_datetime`/`end_datetime` are microsecond timestamps;
`datetime.time.max` is 23:59:59.999999, i.e. one microsecond before the next
midnight.  `total_seconds()` is exact here because the embedding is rational. -/
def calculate_business_days (start_datetime end_datetime : ℤ) : ℚ :=
  if start_datetime ≥ end_datetime then 0
  else
    let start_date := dayOf start_datetime
    let end_date := dayOf end_datetime
    let business_days : ℤ := countFullWeekdays start_date (end_date - start_date).toNat
    let total_seconds : ℚ := ((end_datetime - start_datetime : ℤ) : ℚ) / 1000000
    if business_days = 0 then
      if weekdayOf start_datetime < 5 then total_seconds / 86400 else 0
    else
      let start_end_of_day : ℤ := start_date * USEC_PER_DAY + (USEC_PER_DAY - 1)
      let sp : ℚ × ℤ :=
        if weekdayOf start_datetime < 5 then
          (((start_end_of_day - start_datetime : ℤ) : ℚ) / 1000000 / 86400, business_days - 1)
        else (0, business_days)
      let end_start_of_day : ℤ := end_date * USEC_PER_DAY
      let ep : ℚ × ℤ :=
        if weekdayOf end_datetime < 5 then
          (((end_datetime - end_start_of_day : ℤ) : ℚ) / 1000000 / 86400, sp.2 - 1)
        else (0, sp.2)
      ((ep.2 : ℚ)) + sp.1 + ep.1

/-! ### String helpers

Python string operations used by the source, embedded structurally over
`String.data` so that concrete instances reduce. -/

/-- Character set of Python `strip('- ')`. -/
def isDashSpace (c : Char) : Bool := c = '-' || c = ' '

/-- Drop leading characters satisfying `p`. -/
def dropLeading (p : Char → Bool) : List Char → List Char
  | [] => []
  | c :: cs => if p c then dropLeading p cs else c :: cs

/-- Python `str.strip(chars)`: drop characters in the set from both ends. -/
def stripChars (p : Char → Bool) (l : List Char) : List Char :=
  (dropLeading p (dropLeading p l).reverse).reverse

/-- Embedding of `x.strip('- ').lower()` (normalization of event statuses,
src/metrics_processor.py lines 166-167). -/
def normStrip (s : String) : String :=
  String.mk ((stripChars isDashSpace s.data).map Char.toLower)

/-- Embedding of `.lower()` / pandas `.str.lower()`. -/
def lowerStr (s : String) : String := String.mk (s.data.map Char.toLower)

/-- Embedding of `raw_status.lower().replace("-", "").strip()`
(src/metrics_processor.py line 216). -/
def statusClean (s : String) : String :=
  String.mk (stripChars Char.isWhitespace ((s.data.map Char.toLower).filter (fun c => c ≠ '-')))

/-- Helper for Python `str.title()`: capitalize the first letter of each
alphabetic run, lowercase the rest.  The Bool argument records whether the
previous character was alphabetic. -/
def titleChars : Bool → List Char → List Char
  | _, [] => []
  | prevAlpha, c :: cs =>
    if c.isAlpha then (if prevAlpha then c.toLower else c.toUpper) :: titleChars true cs
    else c :: titleChars false cs

/-- Embedding of Python `str.title()` (ASCII). -/
def titlecase (s : String) : String := String.mk (titleChars false s.data)

/-- Does `pat` occur at the head of the text? -/
def startsWithChars : List Char → List Char → Bool
  | [], _ => true
  | _ :: _, [] => false
  | p :: ps, c :: cs => p = c && startsWithChars ps cs

/-- Does `pat` occur anywhere in the text (Python `pat in text`)? -/
def occursInChars (pat : List Char) : List Char → Bool
  | [] => startsWithChars pat []
  | c :: cs => startsWithChars pat (c :: cs) || occursInChars pat cs

/-- Python substring containment `pat in s` (case-sensitive, contiguous). -/
def occursIn (pat s : String) : Bool := occursInChars pat.data s.data

/-! ### Sprint-name date parsing

Embedding of the regex search for `Iteration (\d{2}\.\d{2}\.\d{2})` followed
by `strptime('%m.%d.%y')`, shared by `process_issue_metrics`
(src/metrics_processor.py lines 123-129) and `_parse_sprint_date`
(src/dashboard_calculator.py lines 284-301).  A parse failure yields
`datetime.datetime.min`, embedded as `none` (see the header comment). -/

/-- Numeric value of an ASCII digit. -/
def digitVal (c : Char) : ℕ := c.toNat - 48

/-- Try to match `Iteration ` followed by `dd.dd.dd` at the head of the text,
returning the three two-digit groups. -/
def matchIterationAt : List Char → Option (ℕ × ℕ × ℕ)
  | 'I' :: 't' :: 'e' :: 'r' :: 'a' :: 't' :: 'i' :: 'o' :: 'n' :: ' ' ::
      m1 :: m2 :: '.' :: d1 :: d2 :: '.' :: y1 :: y2 :: _ =>
    if m1.isDigit && m2.isDigit && d1.isDigit && d2.isDigit && y1.isDigit && y2.isDigit then
      some (digitVal m1 * 10 + digitVal m2, digitVal d1 * 10 + digitVal d2,
            digitVal y1 * 10 + digitVal y2)
    else none
  | _ => none

/-- `re.search`: first position at which the pattern matches. -/
def findIterationDate : List Char → Option (ℕ × ℕ × ℕ)
  | [] => none
  | c :: cs =>
    match matchIterationAt (c :: cs) with
    | some v => some v
    | none => findIterationDate cs

/-- Gregorian leap year. -/
def isLeapYear (y : ℤ) : Bool := (y % 4 = 0 && y % 100 ≠ 0) || y % 400 = 0

/-- Number of days in a month (used to embed `strptime` date validation). -/
def daysInMonth (y : ℤ) (m : ℕ) : ℕ :=
  if m = 2 then (if isLeapYear y then 29 else 28)
  else if m = 4 ∨ m = 6 ∨ m = 9 ∨ m = 11 then 30 else 31

/-- Civil day number (days since 1970-01-01) of a Gregorian date
(standard era-based algorithm). -/
def daysFromCivil (y : ℤ) (m d : ℕ) : ℤ :=
  let y' : ℤ := if m ≤ 2 then y - 1 else y
  let era : ℤ := Int.fdiv y' 400
  let yoe : ℤ := y' - era * 400
  let mp : ℕ := (m + 9) % 12
  let doy : ℤ := ((153 * mp + 2) / 5 : ℕ) + ((d : ℤ) - 1)
  let doe : ℤ := yoe * 365 + Int.fdiv yoe 4 - Int.fdiv yoe 100 + doy
  era * 146097 + doe - 719468

/-- `strptime('%m.%d.%y')` on the three matched groups: validates month and
day, maps two-digit years 00-68 to 2000-2068 and 69-99 to 1969-1999
(a `ValueError` is caught by the source and yields the sentinel). -/
def strptimeMDY (m d y2 : ℕ) : Option ℤ :=
  let y : ℤ := if y2 ≤ 68 then 2000 + (y2 : ℤ) else 1900 + (y2 : ℤ)
  if 1 ≤ m ∧ m ≤ 12 ∧ 1 ≤ d ∧ d ≤ daysInMonth y m then some (daysFromCivil y m d) else none

/-- Parsed sprint start date of a sprint name: `none` embeds
`datetime.datetime.min` (no regex match, or `strptime` failure). -/
def parse_sprint_date (name : String) : Option ℤ :=
  match findIterationDate name.data with
  | some (m, d, y2) => strptimeMDY m d y2
  | none => none

/-! ### Order on sentinel dates

`Option ℤ` with `none` = `datetime.datetime.min` strictly below every real
date (every parsable date is in 1969-2068, far above year 1). -/

/-- `a <= b` on sentinel dates. -/
def dle : Option ℤ → Option ℤ → Bool
  | none, _ => true
  | some _, none => false
  | some a, some b => a ≤ b

/-- `a < b` on sentinel dates. -/
def dlt : Option ℤ → Option ℤ → Bool
  | _, none => false
  | none, some _ => true
  | some a, some b => a < b

/-- Binary max on sentinel dates (pandas `.max()` / running maximum). -/
def dmax (a b : Option ℤ) : Option ℤ := if dle a b then b else a

/-! ### Configuration constants (src/config.py) -/

def FIELD_TEAM_FILTER_VALUE : String := "Foundation"

def COMPLETION_STATUSES : List String :=
  ["accepted", "uat", "ready for release", "closedcompleted", "closed completed"]

def DELIVERY_STATUSES : List String := COMPLETION_STATUSES ++ ["delivered"]

def WEIGHT_VELOCITY : ℚ := 0.60
def WEIGHT_QUALITY : ℚ := 0.25
def WEIGHT_FLOW : ℚ := 0.15
def VELOCITY_WEIGHT_THROUGHPUT : ℚ := 0.60
def VELOCITY_WEIGHT_EFFICIENCY : ℚ := 0.40
def QUALITY_WEIGHT_BUGS : ℚ := 0.60
def QUALITY_WEIGHT_REJECTIONS : ℚ := 0.40
def MEDIAN_BASELINE_SCORE : ℚ := 70.0
def EXCELLENCE_SCORE : ℚ := 100.0
def BUG_PENALTY_PER_BUG : ℚ := 20.0
def BUG_PENALTY_CAP : ℚ := 5
def FLOW_DEFAULT_SCORE : ℚ := 70.0
def SPRINT_DURATION_DAYS : ℤ := 6

/-- Embedding of Python/pandas `round(x, n)`: round to `n` decimal places.
Float rounding is half-to-even; no statement below depends on the behaviour
at exact midpoints, so the standard `round` is used. -/
def roundTo (n : ℕ) (x : ℚ) : ℚ := ((round (x * 10 ^ n) : ℤ) : ℚ) / 10 ^ n

/-! ### Input data model (the Jira issue as read by the processor) -/

/-- A sprint descriptor attached to an issue: a name and optional goal text
(the `hasattr(s, 'name')` / `hasattr(last_sprint, 'goal')` shape; a missing
or `None` goal becomes the empty string in the source). -/
structure SprintInfo where
  name : String
  goal : Option String
deriving DecidableEq, Repr

/-- One entry of a changelog history (`item.field`, `item.fromString`,
`item.toString`); `None` strings are embedded as `none`. -/
structure HistoryItem where
  field : String
  fromString : Option String
  toString : Option String
deriving DecidableEq, Repr

/-- One changelog history: a creation timestamp and its items.  The source
keys the sort on the ISO-8601 `created` string; with a uniform offset that
order is chronological order, embedded directly as the timestamp. -/
structure History where
  created : ℤ
  items : List HistoryItem
deriving DecidableEq, Repr

/-- The fields of a Jira issue read by `process_issue_metrics`.  Timestamps
are already values (the `strptime` calls of the source always succeed on
well-formed input, which is the only case modelled). -/
structure Issue where
  key : String
  storyPoints : Option ℚ
  created : ℤ
  status : String
  issuetype : String
  sprint : List SprintInfo
  histories : List History
deriving DecidableEq, Repr

/-- The dictionary returned by `process_issue_metrics`
(src/metrics_processor.py lines 244-260), one normalized record per item. -/
structure ItemRecord where
  issueKey : String
  issueType : String
  storyPoints : ℚ
  sprintName : String
  daysInProgress : ℚ
  devCycleTime : ℚ
  reviewCycleTime : ℚ
  acceptanceCycleTime : ℚ
  rejectionCount : ℕ
  reachedDelivered : ℕ
  status : String
  timestamp : ℤ
  wasRejected : Bool
  createdDate : Option ℤ
  sprintStartDate : Option ℤ
deriving DecidableEq, Repr

/-! ### Stable sort (Python `sorted`, ascending by key)

Python `sorted` is stable; a stable ascending sort is extensionally unique,
so insertion sort is a faithful embedding. -/

/-- Insert `x` before the first element `y` with `le x y` (so elements equal
to `x` that are already in place keep priority over `x`: combined with
right-to-left folding this is the stable sort). -/
def insertStable (le : α → α → Bool) (x : α) : List α → List α
  | [] => [x]
  | y :: ys => if le x y then x :: y :: ys else y :: insertStable le x ys

/-- Stable ascending sort by `le`. -/
def sortStable (le : α → α → Bool) : List α → List α
  | [] => []
  | x :: xs => insertStable le x (sortStable le xs)

/-- `sorted(changelog.histories, key=lambda x: x.created)`. -/
def sortHistories (hs : List History) : List History :=
  sortStable (fun a b => a.created ≤ b.created) hs

/-! ### The status-history walk (src/metrics_processor.py lines 149-204) -/

/-- Tracked-active statuses (`["started", "peer review", "finished",
"delivered"]`). -/
def ACTIVE_STATUSES : List String := ["started", "peer review", "finished", "delivered"]

/-- The mutable state of the changelog replay loop. -/
structure WalkState where
  current_status : String
  last_change_time : ℤ
  time_in_progress_days : ℚ
  dev_time_days : ℚ
  review_time_days : ℚ
  acceptance_time_days : ℚ
  rejection_count : ℕ
  was_rejected : Bool
deriving DecidableEq, Repr

/-- Accumulate the elapsed duration into the total and into the bucket chosen
by the *current* (pre-transition) status — the inner conditional block of the
loop and of the open-item epilogue. -/
def accumulate (st : WalkState) (duration_days : ℚ) : WalkState :=
  if ACTIVE_STATUSES.contains st.current_status then
    let st' := { st with time_in_progress_days := st.time_in_progress_days + duration_days }
    if st.current_status = "started" then
      { st' with dev_time_days := st'.dev_time_days + duration_days }
    else if st.current_status = "peer review" ∨ st.current_status = "finished" then
      { st' with review_time_days := st'.review_time_days + duration_days }
    else if st.current_status = "delivered" then
      { st' with acceptance_time_days := st'.acceptance_time_days + duration_days }
    else st'
  else st

/-- Process one changelog item at the history's `change_time`: only `status`
items act; they accumulate the duration since the last change, count
delivered→rejected transitions, and advance the state. -/
def itemStep (change_time : ℤ) (st : WalkState) (it : HistoryItem) : WalkState :=
  if it.field = "status" then
    let from_status := normStrip (it.fromString.getD "")
    let to_status := normStrip (it.toString.getD "")
    let duration_days := calculate_business_days st.last_change_time change_time
    let st1 := accumulate st duration_days
    let st2 :=
      if from_status = "delivered" ∧ to_status = "rejected" then
        { st1 with rejection_count := st1.rejection_count + 1, was_rejected := true }
      else st1
    { st2 with current_status := to_status, last_change_time := change_time }
  else st

/-- Process one history (all its items share one `change_time`). -/
def histStep (st : WalkState) (h : History) : WalkState :=
  h.items.foldl (itemStep h.created) st

/-- The whole changelog replay for an issue, including the open-item epilogue
that accumulates from the last change to `now` when the final status is still
tracked-active. -/
def walkAll (issue : Issue) (now : ℤ) : WalkState :=
  let st0 : WalkState := ⟨"To Do", issue.created, 0, 0, 0, 0, 0, false⟩
  let st1 := (sortHistories issue.histories).foldl histStep st0
  if ACTIVE_STATUSES.contains st1.current_status then
    accumulate st1 (calculate_business_days st1.last_change_time now)
  else st1

/-! ### Sprint selection and the team filter
(src/metrics_processor.py lines 102-147) -/

/-- One step of the best-sprint loop: state is
`(best_sprint, best_date, sprint_name)`; a candidate whose parsed date is
`>=` the best so far replaces it (so the last maximum wins). -/
def selStep (acc : Option SprintInfo × Option ℤ × String) (s : SprintInfo) :
    Option SprintInfo × Option ℤ × String :=
  let current_date := parse_sprint_date s.name
  if dle acc.2.1 current_date then (some s, current_date, s.name) else acc

/-- The best-sprint loop over all candidates, from the initial state
`(None, datetime.min, "Unknown Sprint")`. -/
def selectSprint (cs : List SprintInfo) : Option SprintInfo × Option ℤ × String :=
  cs.foldl selStep (none, none, "Unknown Sprint")

/-- Goal text of the selected candidate (missing/None goal → `''`). -/
def goalOf (o : Option SprintInfo) : String :=
  match o with
  | some s => s.goal.getD ""
  | none => ""

/-- Embedding of `process_issue_metrics(issue, team_filter)`
(src/metrics_processor.py lines 78-260).  `now` is the single clock reading
of the run.  Returns `none` exactly when the source returns `None`. -/
def process_issue_metrics (issue : Issue) (team_filter : String) (now : ℤ) :
    Option ItemRecord :=
  let story_points : ℚ := issue.storyPoints.getD 0
  let sel := selectSprint issue.sprint
  let pass : Bool :=
    if issue.sprint.isEmpty then true
    else occursIn team_filter (goalOf sel.1)
  if pass = false then none
  else
    let st := walkAll issue now
    let status_clean := statusClean issue.status
    some
      { issueKey := issue.key
        issueType := issue.issuetype
        storyPoints := story_points
        sprintName := sel.2.2
        daysInProgress := roundTo 2 st.time_in_progress_days
        devCycleTime := roundTo 2 st.dev_time_days
        reviewCycleTime := roundTo 2 st.review_time_days
        acceptanceCycleTime := roundTo 2 st.acceptance_time_days
        rejectionCount := st.rejection_count
        reachedDelivered := if DELIVERY_STATUSES.contains status_clean then 1 else 0
        status := titlecase status_clean
        timestamp := now
        wasRejected := st.was_rejected
        createdDate := some issue.created
        sprintStartDate := sel.2.1 }

/-- The Boolean form of the rejection condition of the walk: a `status` item
whose normalized from-status is `delivered` and normalized to-status is
`rejected`. -/
def rejPred (it : HistoryItem) : Bool :=
  decide (it.field = "status") &&
    decide (normStrip (it.fromString.getD "") = "delivered") &&
    decide (normStrip (it.toString.getD "") = "rejected")

/-- Number of delivered→rejected transitions in a changelog. -/
def countRejections (hs : List History) : ℕ :=
  (hs.map (fun h => h.items.countP rejPred)).sum

/-! ### Dashboard aggregation and scoring (src/dashboard_calculator.py)

`calculate_scores` receives the metrics table (one `ItemRecord` per row) and
the flow-survey table and produces the dashboard table.  Pandas dataframes
are embedded as lists of rows; a groupby-and-outer-merge cascade is embedded
as a deduplicated key list with per-key aggregates (a key absent from one
aggregate gets the `fillna(0)` value: the sum/count over the empty list).
Output row ORDER is irrelevant to every statement proved below. -/

/-- One row of the flow-survey table (`sprint_name`, `flow_score_raw`);
a NaN score is embedded as `none`. -/
structure FlowRow where
  sprint_name : String
  flow_score_raw : Option ℚ
deriving DecidableEq, Repr

/-- One row of the dashboard table, covering every column the source builds
(intermediate sum columns included). -/
structure DashRow where
  sprintName : String
  completedTickets : ℚ
  totalStoryPoints : ℚ
  daysInProgress : ℚ
  devCycleTime : ℚ
  reviewCycleTime : ℚ
  acceptanceCycleTime : ℚ
  reachedDelivered : ℚ
  rejectionCount : ℚ
  bugsCreated : ℚ
  avgCycleTimePerTicket : ℚ
  avgDevCycleTimePerTicket : ℚ
  avgReviewCycleTimePerTicket : ℚ
  avgAcceptanceCycleTimePerTicket : ℚ
  avgCycleTimePerPoint : ℚ
  rejectionRatioPct : ℚ
  bugScore : ℚ
  rejectionScore : ℚ
  flowSurveyScore : Option ℚ
  flowScoreImputed : Bool
  flowSurveyFilled : ℚ
  throughputScore : ℚ
  efficiencyScore : ℚ
  velocityScore : ℚ
  qualityScore : ℚ
  flowScore : ℚ
  finalIndex : ℚ

/-- First-occurrence deduplication (pandas `drop_duplicates` / the key set of
a groupby-merge cascade). -/
def dedupFirst [DecidableEq α] : List α → List α
  | [] => []
  | x :: xs => x :: (dedupFirst xs).filter (fun y => decide (y ≠ x))

/-- Running maximum of the parsed sprint dates of the metrics rows
(`metrics_df['Sprint Start Date'].max()`, src/dashboard_calculator.py
line 45). -/
def maxStartDate (metrics_df : List ItemRecord) : Option ℤ :=
  metrics_df.foldl (fun a r => dmax a (parse_sprint_date r.sprintName)) none

/-- Running maximum of the parsed sprint dates of the dashboard rows
(`dashboard['Sprint Start Date'].max()`, src/dashboard_calculator.py
line 212). -/
def maxDashDate (rows : List DashRow) : Option ℤ :=
  rows.foldl (fun a r => dmax a (parse_sprint_date r.sprintName)) none

/-- Embedding of `_count_bugs_created_in_sprint_periods`
(src/dashboard_calculator.py lines 241-281): every distinct sprint with a
real (non-sentinel) parsed date gets a row counting the `Bug`-type items of
the **unfiltered** table whose creation timestamp lies in
`[startDate, startDate + SPRINT_DURATION_DAYS]` (inclusive; a missing
creation date, pandas `NaT`, satisfies neither comparison). -/
def count_bugs_created_in_sprint_periods (metrics_df : List ItemRecord) :
    List (String × ℕ) :=
  let sprints := dedupFirst (metrics_df.map (fun r => (r.sprintName, parse_sprint_date r.sprintName)))
  let sprints2 := sprints.filter (fun p => decide (p.2 ≠ none))
  let sorted := sortStable (fun a b => dle a.2 b.2) sprints2
  sorted.map (fun p =>
    (p.1,
      match p.2 with
      | some d =>
        metrics_df.countP (fun r =>
          decide (r.issueType = "Bug") &&
            (match r.createdDate with
             | some t => decide (d * USEC_PER_DAY ≤ t ∧ t ≤ (d + SPRINT_DURATION_DAYS) * USEC_PER_DAY)
             | none => false))
      | none => 0))

/-- Per-key aggregation plus the pre-flow-merge scoring columns
(src/dashboard_calculator.py lines 50-130): counts and sums over the
completed (`done_mask`) rows, delivered/rejection sums over the non-`Task`
rows, the merged bug count, the per-ticket and per-point averages
(division by zero yields 0), rejection ratio, bug score, rejection score.
Columns computed later hold their pre-merge defaults. -/
def buildBase (doneRows nonTask : List ItemRecord) (bugCounts : List (String × ℕ))
    (k : String) : DashRow :=
  let dk := doneRows.filter (fun r => decide (r.sprintName = k))
  let nk := nonTask.filter (fun r => decide (r.sprintName = k))
  let completed : ℚ := (dk.length : ℚ)
  let points : ℚ := (dk.map (fun r => r.storyPoints)).sum
  let dip : ℚ := (dk.map (fun r => r.daysInProgress)).sum
  let dev : ℚ := (dk.map (fun r => r.devCycleTime)).sum
  let rev : ℚ := (dk.map (fun r => r.reviewCycleTime)).sum
  let acc : ℚ := (dk.map (fun r => r.acceptanceCycleTime)).sum
  let delivered : ℚ := (nk.map (fun r => (r.reachedDelivered : ℚ))).sum
  let rejections : ℚ := (nk.map (fun r => (r.rejectionCount : ℚ))).sum
  let bugs : ℚ := (((bugCounts.find? (fun p => decide (p.1 = k))).map (fun p => (p.2 : ℚ))).getD 0)
  { sprintName := k
    completedTickets := completed
    totalStoryPoints := points
    daysInProgress := dip
    devCycleTime := dev
    reviewCycleTime := rev
    acceptanceCycleTime := acc
    reachedDelivered := delivered
    rejectionCount := rejections
    bugsCreated := bugs
    avgCycleTimePerTicket := roundTo 2 (if 0 < completed then dip / completed else 0)
    avgDevCycleTimePerTicket := roundTo 2 (if 0 < completed then dev / completed else 0)
    avgReviewCycleTimePerTicket := roundTo 2 (if 0 < completed then rev / completed else 0)
    avgAcceptanceCycleTimePerTicket := roundTo 2 (if 0 < completed then acc / completed else 0)
    avgCycleTimePerPoint := roundTo 2 (if 0 < points then dip / points else 0)
    rejectionRatioPct := roundTo 1 (if 0 < delivered then rejections / delivered * 100 else 0)
    bugScore := roundTo 1 (max 0 (EXCELLENCE_SCORE - min bugs BUG_PENALTY_CAP * BUG_PENALTY_PER_BUG))
    rejectionScore :=
      roundTo 1 (max 0 (EXCELLENCE_SCORE - roundTo 1 (if 0 < delivered then rejections / delivered * 100 else 0)))
    flowSurveyScore := none
    flowScoreImputed := false
    flowSurveyFilled := 0
    throughputScore := 0
    efficiencyScore := 0
    velocityScore := 0
    qualityScore := 0
    flowScore := 0
    finalIndex := 0 }

/-- The left merge with the flow table (src/dashboard_calculator.py lines
133-134): each dashboard row becomes one row per matching flow row (or one
row with no data when nothing matches). -/
def mergeFlow (flow_df : List FlowRow) (r : DashRow) : List DashRow :=
  let ms := flow_df.filter (fun f => decide (f.sprint_name = r.sprintName))
  if ms.isEmpty then [r]
  else ms.map (fun f => { r with flowSurveyScore := f.flow_score_raw })

/-- Pandas `median()`: middle element of the sorted values, or the mean of
the two middle elements; `none` embeds the NaN median of an empty list. -/
def medianQ (l : List ℚ) : Option ℚ :=
  let s := sortStable (fun a b => decide (a ≤ b)) l
  if s.isEmpty then none
  else some
    (if s.length % 2 = 1 then s.getD (s.length / 2) 0
     else (s.getD (s.length / 2 - 1) 0 + s.getD (s.length / 2) 0) / 2)

/-- Embedding of the closure `calc_throughput_score`
(src/dashboard_calculator.py lines 156-164).  A `none` median embeds the NaN
median of a run with no positive completed-ticket count; in the source that
NaN reaches the arithmetic only when `actual_tickets <= 0` already returned 0
(a NaN median forces every count to be 0), so the embedding returns 0. -/
def calc_throughput_score (median_tickets : Option ℚ) (actual_tickets : ℚ) : ℚ :=
  match median_tickets with
  | none => 0
  | some m =>
    if actual_tickets ≤ 0 ∨ m ≤ 0 then 0
    else if m ≤ actual_tickets then
      min EXCELLENCE_SCORE (MEDIAN_BASELINE_SCORE + (actual_tickets / m - 1) * EXCELLENCE_SCORE)
    else MEDIAN_BASELINE_SCORE * (actual_tickets / m)

/-- Embedding of the closure `calc_efficiency_score`
(src/dashboard_calculator.py lines 169-177); the inverse curve: at or below
the median cycle time scale up from the baseline, above it scale down.
The `none` median case is as in `calc_throughput_score`. -/
def calc_efficiency_score (median_cycle_time : Option ℚ) (actual_cycle_time : ℚ) : ℚ :=
  match median_cycle_time with
  | none => 0
  | some m =>
    if actual_cycle_time ≤ 0 ∨ m ≤ 0 then 0
    else if actual_cycle_time ≤ m then
      min EXCELLENCE_SCORE (MEDIAN_BASELINE_SCORE + (1 - actual_cycle_time / m) * EXCELLENCE_SCORE)
    else MEDIAN_BASELINE_SCORE * (m / actual_cycle_time)

/-- The per-row scoring columns (src/dashboard_calculator.py lines 166-204):
throughput, efficiency, velocity, quality, flow, and the final index. -/
def scoreRow (median_tickets median_cycle_time : Option ℚ) (r : DashRow) : DashRow :=
  let tp := roundTo 1 (calc_throughput_score median_tickets r.completedTickets)
  let eff := roundTo 1 (calc_efficiency_score median_cycle_time r.avgCycleTimePerTicket)
  let vel := roundTo 1 (tp * VELOCITY_WEIGHT_THROUGHPUT + eff * VELOCITY_WEIGHT_EFFICIENCY)
  let qual := roundTo 1 (r.bugScore * QUALITY_WEIGHT_BUGS + r.rejectionScore * QUALITY_WEIGHT_REJECTIONS)
  let flowS := roundTo 1 (min EXCELLENCE_SCORE (max 0 r.flowSurveyFilled))
  let fin := roundTo 1 (vel * WEIGHT_VELOCITY + flowS * WEIGHT_FLOW + qual * WEIGHT_QUALITY)
  { r with throughputScore := tp, efficiencyScore := eff, velocityScore := vel,
           qualityScore := qual, flowScore := flowS, finalIndex := fin }

/-- The dashboard construction of `calculate_scores` up to and including the
scoring columns (src/dashboard_calculator.py lines 26-204): active-sprint
pre-filter, aggregation, flow merge and imputation, and median-relative
scoring.  The date sort and the final active-sprint removal (lines 206-238)
are applied on top by `calculate_scores`. -/
def calcDashboardRows (metrics_df : List ItemRecord) (flow_df : List FlowRow) :
    List DashRow :=
  let unfiltered := metrics_df
  let most_recent := maxStartDate metrics_df
  let metricsF := metrics_df.filter (fun r => dlt (parse_sprint_date r.sprintName) most_recent)
  let doneRows := metricsF.filter (fun r => COMPLETION_STATUSES.contains (lowerStr r.status))
  let nonTask := metricsF.filter (fun r => decide (r.issueType ≠ "Task"))
  let bugCounts := count_bugs_created_in_sprint_periods unfiltered
  let keys := dedupFirst
    (doneRows.map (fun r => r.sprintName) ++ nonTask.map (fun r => r.sprintName) ++
      bugCounts.map (fun p => p.1))
  let base := keys.map (buildBase doneRows nonTask bugCounts)
  let afterFlow := base.flatMap (mergeFlow flow_df)
  let flowVals := afterFlow.filterMap (fun r => r.flowSurveyScore)
  let avg_flow := if flowVals.isEmpty then FLOW_DEFAULT_SCORE else flowVals.sum / (flowVals.length : ℚ)
  let imputed := afterFlow.map (fun r =>
    { r with flowScoreImputed := r.flowSurveyScore.isNone,
             flowSurveyFilled := r.flowSurveyScore.getD avg_flow })
  let median_tickets := medianQ ((imputed.map (fun r => r.completedTickets)).filter (fun x => decide (0 < x)))
  let median_cycle_time := medianQ ((imputed.map (fun r => r.avgCycleTimePerTicket)).filter (fun x => decide (0 < x)))
  imputed.map (scoreRow median_tickets median_cycle_time)

/-- Embedding of `calculate_scores` (src/dashboard_calculator.py lines
26-238): the dashboard rows, sorted descending by parsed sprint date, with
the active (most recent) sprint removed a second time. -/
def calculate_scores (metrics_df : List ItemRecord) (flow_df : List FlowRow) :
    List DashRow :=
  let sorted := sortStable
    (fun a b => dle (parse_sprint_date b.sprintName) (parse_sprint_date a.sprintName))
    (calcDashboardRows metrics_df flow_df)
  let most_recent2 := maxDashDate sorted
  sorted.filter (fun r => dlt (parse_sprint_date r.sprintName) most_recent2)

/-! ### Column-level view of the input frame (frame effects of
`calculate_scores`)

The first two statements of `calculate_scores` (src/dashboard_calculator.py
lines 37-38) assign columns **on the caller's dataframe**:
`metrics_df['Sprint Start Date'] = metrics_df['Sprint Name'].apply(_parse_sprint_date)`
and `metrics_df['Created Date Parsed'] = pd.to_datetime(metrics_df['Created
Date'], errors='coerce')`.  Every later statement operates on copies
(`.copy()` at lines 41 and 47) or on the separately built `dashboard` frame,
so these two assignments are the function's entire effect on its input.  To
state that effect, the frame is embedded column-wise: an ordered list of
(column name, cell list); pandas assignment overwrites an existing column in
place or appends a new one at the end. -/

/-- One pandas cell: string, number, int, datetime, bool, Python `None`,
or `NaT`. -/
inductive Cell where
  | cs : String → Cell
  | cq : ℚ → Cell
  | cz : ℤ → Cell
  | cdt : ℤ → Cell
  | cb : Bool → Cell
  | cnone : Cell
  | cnat : Cell
deriving DecidableEq, Repr

/-- A dataframe as an ordered association of column names to cell columns. -/
def DataFrameC : Type := List (String × List Cell)

/-- Column lookup. -/
def getColC (df : DataFrameC) (name : String) : Option (List Cell) :=
  (List.find? (fun c => decide (c.1 = name)) df).map (fun c => c.2)

/-- Pandas column assignment: overwrite in place, or append at the end. -/
def setColC (df : DataFrameC) (name : String) (vals : List Cell) : DataFrameC :=
  match df with
  | [] => [(name, vals)]
  | c :: rest => if c.1 = name then (name, vals) :: rest else c :: setColC rest name vals

/-- Day number of `datetime.datetime.min` (year 1, January 1). -/
def DATETIME_MIN_DAY : ℤ := daysFromCivil 1 1 1

/-- `_parse_sprint_date` applied to one cell: non-strings and parse failures
yield `datetime.min` (src/dashboard_calculator.py lines 284-301). -/
def parseSprintDateCell (c : Cell) : Cell :=
  match c with
  | Cell.cs s =>
    match parse_sprint_date s with
    | some d => Cell.cdt (d * USEC_PER_DAY)
    | none => Cell.cdt (DATETIME_MIN_DAY * USEC_PER_DAY)
  | _ => Cell.cdt (DATETIME_MIN_DAY * USEC_PER_DAY)

/-- Parse a naive `datetime.isoformat()` string
(`YYYY-MM-DDTHH:MM:SS` with optional `.ffffff`). -/
def parseIsoChars : List Char → Option ℤ
  | y1 :: y2 :: y3 :: y4 :: '-' :: m1 :: m2 :: '-' :: d1 :: d2 :: 'T' ::
      h1 :: h2 :: ':' :: mi1 :: mi2 :: ':' :: s1 :: s2 :: rest =>
    if y1.isDigit && y2.isDigit && y3.isDigit && y4.isDigit && m1.isDigit && m2.isDigit &&
       d1.isDigit && d2.isDigit && h1.isDigit && h2.isDigit && mi1.isDigit && mi2.isDigit &&
       s1.isDigit && s2.isDigit then
      let y : ℤ := ((digitVal y1 * 1000 + digitVal y2 * 100 + digitVal y3 * 10 + digitVal y4 : ℕ) : ℤ)
      let mo := digitVal m1 * 10 + digitVal m2
      let d := digitVal d1 * 10 + digitVal d2
      let h := digitVal h1 * 10 + digitVal h2
      let mi := digitVal mi1 * 10 + digitVal mi2
      let s := digitVal s1 * 10 + digitVal s2
      let micro : Option ℕ :=
        match rest with
        | [] => some 0
        | '.' :: f1 :: f2 :: f3 :: f4 :: f5 :: f6 :: [] =>
          if f1.isDigit && f2.isDigit && f3.isDigit && f4.isDigit && f5.isDigit && f6.isDigit then
            some (digitVal f1 * 100000 + digitVal f2 * 10000 + digitVal f3 * 1000 +
                  digitVal f4 * 100 + digitVal f5 * 10 + digitVal f6)
          else none
        | _ => none
      match micro with
      | some mu =>
        if 1 ≤ mo ∧ mo ≤ 12 ∧ 1 ≤ d ∧ d ≤ daysInMonth y mo ∧ h ≤ 23 ∧ mi ≤ 59 ∧ s ≤ 59 then
          some (daysFromCivil y mo d * USEC_PER_DAY +
                (((h * 3600 + mi * 60 + s) * 1000000 + mu : ℕ) : ℤ))
        else none
      | none => none
    else none
  | _ => none

/-- `pd.to_datetime(·, errors='coerce')` on one cell: `None` and anything
unparsable become `NaT`. -/
def toDatetimeCell (c : Cell) : Cell :=
  match c with
  | Cell.cs s =>
    match parseIsoChars s.data with
    | some t => Cell.cdt t
    | none => Cell.cnat
  | Cell.cdt t => Cell.cdt t
  | Cell.cnone => Cell.cnat
  | _ => Cell.cnat

/-- The caller's metrics frame after `calculate_scores` returns: the
`Sprint Start Date` column is overwritten with parsed dates and a
`Created Date Parsed` column is appended (src/dashboard_calculator.py
lines 37-38, the only writes through to the input). -/
def calculate_scores_input_after (df : DataFrameC) : DataFrameC :=
  let df1 := setColC df "Sprint Start Date"
    (((getColC df "Sprint Name").getD []).map parseSprintDateCell)
  setColC df1 "Created Date Parsed"
    (((getColC df1 "Created Date").getD []).map toDatetimeCell)

-- Calendar sanity checks: 1970-01-02 (day 1) was a Friday, 1970-01-05
-- (day 4) a Monday; 2025-01-06 was a Monday.
example : weekdayOfDay 1 = 4 := by decide
example : weekdayOfDay 4 = 0 := by decide
example : daysFromCivil 1970 1 1 = 0 := by decide
example : parse_sprint_date "Iteration 01.06.25" = some (daysFromCivil 2025 1 6) := by decide
example : weekdayOfDay (daysFromCivil 2025 1 6) = 0 := by decide
example : parse_sprint_date "Iteration 02.30.25" = none := by decide
example : parse_sprint_date "Unknown Sprint" = none := by decide

/-! ### Concrete timestamps used in the statements below -/

/-- 1970-01-02 (a Friday) 00:00. -/
def friMidnight : ℤ := 1 * USEC_PER_DAY

/-- 1970-01-05 (a Monday) 00:00. -/
def monMidnight : ℤ := 4 * USEC_PER_DAY

/-- Monday 1970-01-05 06:00. -/
def monMorning : ℤ := 4 * USEC_PER_DAY + 21600000000

/-- Monday 1970-01-05 12:00. -/
def monNoon : ℤ := 4 * USEC_PER_DAY + 43200000000

/-- Monday 1970-01-05 23:00. -/
def monLateEvening : ℤ := 4 * USEC_PER_DAY + 82800000000

/-- 1970-01-06 (a Tuesday) 00:00. -/
def tueMidnight : ℤ := 5 * USEC_PER_DAY

/-- Issue exhibiting a negative duration field: created Monday 06:00, moved
to `Started` immediately, and out of the tracked-active set at Tuesday 00:00. -/
def issueC3 : Issue :=
  { key := "NEG-1"
    storyPoints := none
    created := monMorning
    status := "Accepted"
    issuetype := "Story"
    sprint := []
    histories :=
      [ ⟨monMorning, [⟨"status", some "To Do", some "Started"⟩]⟩,
        ⟨tueMidnight, [⟨"status", some "Started", some "Accepted"⟩]⟩ ] }

/-- Bridge between constructed strings and string literals, used to evaluate
the embedding on concrete inputs. -/
theorem mk_eq_str (l : List Char) (s : String) : (String.mk l = s) ↔ l = s.data :=
  ⟨fun h => by cases h; rfl, fun h => by cases s; cases h; rfl⟩

/-- C9: the claim says a Friday-00:00 to Monday-00:00 span yields exactly 0;
the code returns a slightly negative value instead, because the single full
day counted by the loop (the Friday) is subtracted twice — once when the
partial Friday (one microsecond short of a full day) is added back, and once
for the Monday end day that the loop never counted. -/
theorem C9_counterexample : ¬ (calculate_business_days friMidnight monMidnight = 0) := by
  norm_num [calculate_business_days, countFullWeekdays, weekdayOf, weekdayOfDay, dayOf,
    friMidnight, monMidnight, USEC_PER_DAY, Int.fdiv, List.range, List.range.loop]

/-- C9 (amended): `calculate_business_days` over Friday 00:00 → Monday 00:00
returns exactly `-1/86400000000` of a day (one microsecond's worth below
zero), not 0. -/
theorem C9_weekend_span_value :
    calculate_business_days friMidnight monMidnight = -(1 / 86400000000) := by
  norm_num [calculate_business_days, countFullWeekdays, weekdayOf, weekdayOfDay, dayOf,
    friMidnight, monMidnight, USEC_PER_DAY, Int.fdiv, List.range, List.range.loop]

/-- C2: for fixed start Monday 12:00 the function is not monotone in `end`:
it evaluates to `11/24` at Monday 23:00 but drops to `-1/2 - 1/86400000000`
at the larger end Tuesday 00:00 (the end day is subtracted from the full-day
count although the counting loop never counted it). -/
theorem C2_not_monotone :
    monLateEvening ≤ tueMidnight ∧
      calculate_business_days monNoon tueMidnight < calculate_business_days monNoon monLateEvening := by
  constructor
  · decide
  · norm_num [calculate_business_days, countFullWeekdays, weekdayOf, weekdayOfDay, dayOf,
      monNoon, monLateEvening, tueMidnight, USEC_PER_DAY, Int.fdiv, List.range, List.range.loop]

/-- C3: `calculate_business_days` can return a negative value (Monday 06:00 →
Tuesday 00:00 gives `-1/4 - 1/86400000000`), and the resulting `ItemRecord`
duration field is negative: the issue `issueC3` gets a Dev Cycle Time of
`-0.25`. -/
theorem C3_negative_duration :
    calculate_business_days monMorning tueMidnight < 0 ∧
      (process_issue_metrics issueC3 FIELD_TEAM_FILTER_VALUE tueMidnight).map
        (fun r => r.devCycleTime) = some (-(1 / 4)) ∧
      (-(1 / 4) : ℚ) < 0 := by
  refine ⟨?_, ?_, by norm_num⟩
  · norm_num [calculate_business_days, countFullWeekdays, weekdayOf, weekdayOfDay, dayOf,
      monMorning, tueMidnight, USEC_PER_DAY, Int.fdiv, List.range, List.range.loop]
  · simp [process_issue_metrics, issueC3, selectSprint, goalOf, walkAll, sortHistories,
      sortStable, insertStable, histStep, itemStep, accumulate, normStrip, stripChars,
      dropLeading, isDashSpace, mk_eq_str, ACTIVE_STATUSES, List.foldl, List.contains,
      monMorning, tueMidnight, List.isEmpty, roundTo, Option.map, Option.getD]
    norm_num [calculate_business_days, countFullWeekdays, weekdayOf, weekdayOfDay, dayOf,
      USEC_PER_DAY, Int.fdiv, List.range, List.range.loop, round_eq]

/-! ### The phase-partition invariant of the walk (C4) and the rejection
count (C5) -/

/-- `accumulate` never touches the rejection counter. -/
theorem accumulate_rejection_count (st : WalkState) (d : ℚ) :
    (accumulate st d).rejection_count = st.rejection_count := by
  unfold accumulate
  split_ifs <;> rfl

/-- `accumulate` adds the duration to the total exactly when it adds it to
one of the three phase buckets, so it preserves the partition invariant. -/
theorem accumulate_partition (st : WalkState) (d : ℚ)
    (h : st.time_in_progress_days =
      st.dev_time_days + st.review_time_days + st.acceptance_time_days) :
    (accumulate st d).time_in_progress_days =
      (accumulate st d).dev_time_days + (accumulate st d).review_time_days +
        (accumulate st d).acceptance_time_days := by
  unfold accumulate
  split_ifs with hact h1 h2 h3
  · simp only []; linarith
  · simp only []; linarith
  · simp only []; linarith
  · -- tracked-active but not in any bucket: impossible, the buckets cover
    -- the whole tracked-active set
    exfalso
    simp [ACTIVE_STATUSES] at hact
    rcases hact with h | h | h | h <;> simp_all
  · exact h

/-- `itemStep` preserves the partition invariant. -/
theorem itemStep_partition (t : ℤ) (st : WalkState) (it : HistoryItem)
    (h : st.time_in_progress_days =
      st.dev_time_days + st.review_time_days + st.acceptance_time_days) :
    (itemStep t st it).time_in_progress_days =
      (itemStep t st it).dev_time_days + (itemStep t st it).review_time_days +
        (itemStep t st it).acceptance_time_days := by
  unfold itemStep
  dsimp only
  split_ifs with hf hrej
  · exact accumulate_partition st _ h
  · exact accumulate_partition st _ h
  · exact h

/-- Folding `itemStep` over any item list preserves the partition invariant. -/
theorem foldl_itemStep_partition (t : ℤ) (items : List HistoryItem) (st : WalkState)
    (h : st.time_in_progress_days =
      st.dev_time_days + st.review_time_days + st.acceptance_time_days) :
    (items.foldl (itemStep t) st).time_in_progress_days =
      (items.foldl (itemStep t) st).dev_time_days +
        (items.foldl (itemStep t) st).review_time_days +
        (items.foldl (itemStep t) st).acceptance_time_days := by
  induction items generalizing st with
  | nil => exact h
  | cons it rest ih => exact ih _ (itemStep_partition t st it h)

/-- Folding `histStep` over any history list preserves the partition
invariant. -/
theorem foldl_histStep_partition (hs : List History) (st : WalkState)
    (h : st.time_in_progress_days =
      st.dev_time_days + st.review_time_days + st.acceptance_time_days) :
    (hs.foldl histStep st).time_in_progress_days =
      (hs.foldl histStep st).dev_time_days + (hs.foldl histStep st).review_time_days +
        (hs.foldl histStep st).acceptance_time_days := by
  induction hs generalizing st with
  | nil => exact h
  | cons hd rest ih => exact ih _ (foldl_itemStep_partition hd.created hd.items st h)

/-- The full walk satisfies the partition invariant. -/
theorem walkAll_partition (issue : Issue) (now : ℤ) :
    (walkAll issue now).time_in_progress_days =
      (walkAll issue now).dev_time_days + (walkAll issue now).review_time_days +
        (walkAll issue now).acceptance_time_days := by
  have hbase := foldl_histStep_partition (sortHistories issue.histories)
    ⟨"To Do", issue.created, 0, 0, 0, 0, 0, false⟩ (by norm_num)
  unfold walkAll
  dsimp only
  split_ifs with hact
  · exact accumulate_partition _ _ hbase
  · exact hbase

/-- Rounding to `n` decimal places moves a rational by at most half a unit in
the last place. -/
theorem roundTo_sub_le (n : ℕ) (x : ℚ) : |roundTo n x - x| ≤ 1 / (2 * 10 ^ n) := by
  unfold roundTo
  have hpos : (0 : ℚ) < 10 ^ n := by positivity
  have h := abs_sub_round (x * 10 ^ n)
  rw [abs_sub_comm] at h
  have heq : ((round (x * 10 ^ n) : ℤ) : ℚ) / 10 ^ n - x =
      (((round (x * 10 ^ n) : ℤ) : ℚ) - x * 10 ^ n) / 10 ^ n := by
    field_simp
    ring
  rw [heq, abs_div, abs_of_pos hpos, div_le_div_iff₀ hpos (by positivity)]
  nlinarith [h, hpos]

/-- Eliminate the filter shape `if c then None else some x` of the
processor's result. -/
theorem filtered_some {α : Type} {c : Prop} [Decidable c] {x r : α}
    (h : (if c then (none : Option α) else some x) = some r) : x = r := by
  split_ifs at h
  all_goals simp_all

/-- If the unrounded total equals the unrounded phase sum, the rounded
columns agree within `1/50` (four roundings of half a hundredth each). -/
theorem roundTo2_partition_bound (T D R A : ℚ) (h : T = D + R + A) :
    |roundTo 2 T - (roundTo 2 D + roundTo 2 R + roundTo 2 A)| ≤ 1 / 50 := by
  have h1 := roundTo_sub_le 2 T
  have h2 := roundTo_sub_le 2 D
  have h3 := roundTo_sub_le 2 R
  have h4 := roundTo_sub_le 2 A
  rw [abs_le] at h1 h2 h3 h4 ⊢
  norm_num at h1 h2 h3 h4 ⊢
  constructor <;> linarith

/-- C4: for every issue, the accumulated in-progress total equals the sum of
the dev, review, and acceptance phase accumulators exactly (every accumulated
interval is routed into exactly one of the three buckets), and consequently
the rounded record fields satisfy the partition within rounding: the
`Days In Progress` field differs from the sum of the three cycle-time fields
by at most `1/50` (= 0.02, four two-decimal roundings). -/
theorem C4_phase_partition (issue : Issue) (team_filter : String) (now : ℤ) :
    ((walkAll issue now).time_in_progress_days =
      (walkAll issue now).dev_time_days + (walkAll issue now).review_time_days +
        (walkAll issue now).acceptance_time_days) ∧
    ∀ r, process_issue_metrics issue team_filter now = some r →
      |r.daysInProgress - (r.devCycleTime + r.reviewCycleTime + r.acceptanceCycleTime)| ≤ 1 / 50 := by
  refine ⟨walkAll_partition issue now, fun r hr => ?_⟩
  unfold process_issue_metrics at hr
  have hx := filtered_some hr
  subst hx
  exact roundTo2_partition_bound _ _ _ _ (walkAll_partition issue now)

/-- `accumulate` never touches the current status. -/
theorem accumulate_current_status (st : WalkState) (d : ℚ) :
    (accumulate st d).current_status = st.current_status := by
  unfold accumulate
  split_ifs <;> rfl

/-- One item adds exactly `rejPred` to the rejection counter. -/
theorem itemStep_rejcount (t : ℤ) (st : WalkState) (it : HistoryItem) :
    (itemStep t st it).rejection_count =
      st.rejection_count + (if rejPred it then 1 else 0) := by
  have hsplit : rejPred it = true ↔
      (it.field = "status" ∧
        (normStrip (it.fromString.getD "") = "delivered" ∧
          normStrip (it.toString.getD "") = "rejected")) := by
    simp [rejPred, and_assoc]
  unfold itemStep
  dsimp only
  by_cases h1 : it.field = "status"
  · by_cases h2 : normStrip (it.fromString.getD "") = "delivered" ∧
        normStrip (it.toString.getD "") = "rejected"
    · have hp : rejPred it = true := hsplit.mpr ⟨h1, h2⟩
      simp [h1, h2, hp, accumulate_rejection_count]
    · have hp : rejPred it = false := by
        rcases hb : rejPred it with _ | _
        · rfl
        · exact absurd (hsplit.mp hb).2 h2
      simp [h1, h2, hp, accumulate_rejection_count]
  · have hp : rejPred it = false := by
      rcases hb : rejPred it with _ | _
      · rfl
      · exact absurd (hsplit.mp hb).1 h1
    simp [h1, hp]

/-- Folding the items of one history adds their `rejPred` count. -/
theorem foldl_itemStep_rejcount (t : ℤ) (items : List HistoryItem) (st : WalkState) :
    (items.foldl (itemStep t) st).rejection_count =
      st.rejection_count + items.countP rejPred := by
  induction items generalizing st with
  | nil => simp
  | cons it rest ih =>
    rw [List.foldl_cons, ih, itemStep_rejcount, List.countP_cons]
    by_cases hp : rejPred it = true <;> simp [hp] <;> omega

/-- Folding the histories adds the total rejection count. -/
theorem foldl_histStep_rejcount (hs : List History) (st : WalkState) :
    (hs.foldl histStep st).rejection_count =
      st.rejection_count + (hs.map (fun h => h.items.countP rejPred)).sum := by
  induction hs generalizing st with
  | nil => simp
  | cons h rest ih =>
    rw [List.foldl_cons, ih]
    unfold histStep
    rw [foldl_itemStep_rejcount]
    simp
    omega

/-- The walk's final rejection counter is the rejection count of the sorted
changelog. -/
theorem walkAll_rejcount (issue : Issue) (now : ℤ) :
    (walkAll issue now).rejection_count = countRejections (sortHistories issue.histories) := by
  unfold walkAll countRejections
  dsimp only
  split_ifs
  · rw [accumulate_rejection_count, foldl_histStep_rejcount]
    simp
  · rw [foldl_histStep_rejcount]
    simp

/-- `insertStable` produces a permutation of consing. -/
theorem insertStable_perm (le : α → α → Bool) (x : α) (l : List α) :
    (insertStable le x l).Perm (x :: l) := by
  induction l with
  | nil => exact List.Perm.refl _
  | cons y ys ih =>
    unfold insertStable
    split_ifs
    · exact List.Perm.refl _
    · exact (ih.cons y).trans (List.Perm.swap x y ys)

/-- The stable sort permutes its input. -/
theorem sortStable_perm (le : α → α → Bool) (l : List α) :
    (sortStable le l).Perm l := by
  induction l with
  | nil => exact List.Perm.refl _
  | cons x xs ih => exact (insertStable_perm le x (sortStable le xs)).trans (ih.cons x)

/-- Sorting the histories does not change the rejection count. -/
theorem countRejections_sortHistories (hs : List History) :
    countRejections (sortHistories hs) = countRejections hs := by
  unfold countRejections sortHistories
  exact List.Perm.sum_eq ((sortStable_perm _ hs).map _)

/-- C5: whenever `process_issue_metrics` returns a record, its Rejection
Count equals exactly the number of status-change events of the issue's
changelog whose normalized (dash/space-stripped, lowercased) from-status is
`delivered` and normalized to-status is `rejected`, regardless of the other
transitions. -/
theorem C5_rejection_count (issue : Issue) (team_filter : String) (now : ℤ)
    (r : ItemRecord) (hr : process_issue_metrics issue team_filter now = some r) :
    r.rejectionCount = countRejections issue.histories := by
  unfold process_issue_metrics at hr
  have hx := filtered_some hr
  subst hx
  show (walkAll issue now).rejection_count = _
  rw [walkAll_rejcount, countRejections_sortHistories]

/-! ### A concrete issue with a delivered→rejected transition, used to
witness C4 and C5 -/

/-- Issue delivered at creation time Monday 00:00 and rejected at Monday
12:00. -/
def issueRej : Issue :=
  { key := "REJ-1"
    storyPoints := none
    created := monMidnight
    status := "Rejected"
    issuetype := "Story"
    sprint := []
    histories :=
      [ ⟨monMidnight, [⟨"status", some "To Do", some "Delivered"⟩]⟩,
        ⟨monNoon, [⟨"status", some "Delivered", some "Rejected"⟩]⟩ ] }

/-- The record `process_issue_metrics` produces for `issueRej` at `monNoon`:
half a business day in progress, all of it acceptance time, one rejection. -/
def recRej : ItemRecord :=
  { issueKey := "REJ-1"
    issueType := "Story"
    storyPoints := 0
    sprintName := "Unknown Sprint"
    daysInProgress := 1 / 2
    devCycleTime := 0
    reviewCycleTime := 0
    acceptanceCycleTime := 1 / 2
    rejectionCount := 1
    reachedDelivered := 0
    status := "Rejected"
    timestamp := monNoon
    wasRejected := true
    createdDate := some monMidnight
    sprintStartDate := none }

/-- Concrete evaluation of the processor on `issueRej`. -/
theorem procRej_eq :
    process_issue_metrics issueRej FIELD_TEAM_FILTER_VALUE monNoon = some recRej := by
  simp [process_issue_metrics, issueRej, recRej, selectSprint, goalOf, walkAll, sortHistories,
    sortStable, insertStable, histStep, itemStep, accumulate, normStrip, stripChars,
    dropLeading, isDashSpace, mk_eq_str, ACTIVE_STATUSES, List.foldl, List.contains,
    monMidnight, monNoon, List.isEmpty, roundTo, Option.getD, statusClean, titlecase,
    titleChars, DELIVERY_STATUSES, COMPLETION_STATUSES, ItemRecord.mk.injEq]
  norm_num [calculate_business_days, countFullWeekdays, weekdayOf, weekdayOfDay, dayOf,
    USEC_PER_DAY, Int.fdiv, List.range, List.range.loop, round_eq]

/-- Witness for C4 at `issueRej`. -/
theorem C4_phase_partition_witness :
    process_issue_metrics issueRej FIELD_TEAM_FILTER_VALUE monNoon = some recRej ∧
      |recRej.daysInProgress -
        (recRej.devCycleTime + recRej.reviewCycleTime + recRej.acceptanceCycleTime)| ≤ 1 / 50 :=
  ⟨procRej_eq,
    (C4_phase_partition issueRej FIELD_TEAM_FILTER_VALUE monNoon).2 recRej procRej_eq⟩

/-- Witness for C5 at `issueRej`: the record's rejection count is the
delivered→rejected transition count of the changelog. -/
theorem C5_rejection_count_witness :
    process_issue_metrics issueRej FIELD_TEAM_FILTER_VALUE monNoon = some recRej ∧
      recRej.rejectionCount = countRejections issueRej.histories :=
  ⟨procRej_eq,
    C5_rejection_count issueRej FIELD_TEAM_FILTER_VALUE monNoon recRej procRej_eq⟩

/-! ### C6: sprint selection and the team filter -/

/-- `dle` is reflexive. -/
theorem dle_refl (a : Option ℤ) : dle a a = true := by
  cases a <;> simp [dle]

/-- `dmax` picks the right argument when it dominates. -/
theorem dmax_eq_right {a b : Option ℤ} (h : dle a b = true) : dmax a b = b := by
  unfold dmax
  rw [h]
  rfl

/-- `dmax` keeps the left argument otherwise. -/
theorem dmax_eq_left {a b : Option ℤ} (h : ¬ dle a b = true) : dmax a b = a := by
  unfold dmax
  simp [h]

/-- Maximum parsed start date over a candidate list (the spec's reading of
the running `best_date`). -/
def maxParseDate (cs : List SprintInfo) : Option ℤ :=
  cs.foldl (fun a s => dmax a (parse_sprint_date s.name)) none

/-- The selection rule in the spec's words: the candidate with the maximum
parsed `Iteration MM.DD.YY` date, where ties and unparsable names (treated
as the minimum date) are resolved by the **last** candidate in input order
winning (the `>=` comparison). -/
def specSelect (cs : List SprintInfo) : Option SprintInfo :=
  cs.reverse.find? (fun s => decide (parse_sprint_date s.name = maxParseDate cs))

/-- Sprint name of the spec-side selection (`Unknown Sprint` when there is no
candidate). -/
def specName (cs : List SprintInfo) : String :=
  match specSelect cs with
  | some s => s.name
  | none => "Unknown Sprint"

/-- `maxParseDate` over a snoc. -/
theorem maxParseDate_append (p : List SprintInfo) (c : SprintInfo) :
    maxParseDate (p ++ [c]) = dmax (maxParseDate p) (parse_sprint_date c.name) := by
  unfold maxParseDate
  rw [List.foldl_append]
  rfl

/-- The source's best-sprint fold computes exactly the spec-side selection:
the last candidate attaining the maximum parsed date, that maximum, and its
name. -/
theorem selectSprint_eq_spec (cs : List SprintInfo) :
    selectSprint cs = (specSelect cs, maxParseDate cs, specName cs) := by
  induction cs using List.reverseRecOn with
  | nil => rfl
  | append_singleton p c ih =>
    have hstep : selectSprint (p ++ [c]) = selStep (selectSprint p) c := by
      unfold selectSprint
      rw [List.foldl_append]
      rfl
    rw [hstep, ih]
    unfold selStep
    dsimp only
    by_cases hd : dle (maxParseDate p) (parse_sprint_date c.name) = true
    · rw [if_pos hd]
      have hmax : maxParseDate (p ++ [c]) = parse_sprint_date c.name :=
        (maxParseDate_append p c).trans (dmax_eq_right hd)
      have hsel : specSelect (p ++ [c]) = some c := by
        unfold specSelect
        rw [List.reverse_append]
        simp [hmax]
      simp [hsel, hmax, specName]
    · rw [if_neg hd]
      have hmax : maxParseDate (p ++ [c]) = maxParseDate p :=
        (maxParseDate_append p c).trans (dmax_eq_left hd)
      have hne : ¬ (parse_sprint_date c.name = maxParseDate p) := by
        intro he
        exact hd (he ▸ dle_refl _)
      have hsel : specSelect (p ++ [c]) = specSelect p := by
        unfold specSelect
        rw [List.reverse_append, hmax]
        simp [List.find?_cons, hne]
      simp [hsel, hmax, specName]

/-- C6: `process_issue_metrics` returns no record exactly when the issue has
at least one sprint candidate and the goal text of the selected candidate
(the last candidate attaining the maximum parsed date) does not contain the
team filter as a case-sensitive substring; an issue with no sprint candidates
always yields a record, with sprint name `Unknown Sprint`. -/
theorem C6_team_filter (issue : Issue) (team_filter : String) (now : ℤ) :
    (process_issue_metrics issue team_filter now = none ↔
      issue.sprint ≠ [] ∧
        occursIn team_filter (goalOf (specSelect issue.sprint)) = false) ∧
    (issue.sprint = [] →
      ∃ r, process_issue_metrics issue team_filter now = some r ∧
        r.sprintName = "Unknown Sprint") := by
  have hsel := selectSprint_eq_spec issue.sprint
  constructor
  · unfold process_issue_metrics
    dsimp only
    by_cases hemp : issue.sprint.isEmpty
    · have hnil : issue.sprint = [] := by simpa [List.isEmpty_iff] using hemp
      simp [hemp, hnil]
    · have hnil : issue.sprint ≠ [] := by simpa [List.isEmpty_iff] using hemp
      rw [if_neg hemp]
      rw [show (selectSprint issue.sprint).1 = specSelect issue.sprint by rw [hsel]]
      by_cases hocc : occursIn team_filter (goalOf (specSelect issue.sprint)) = false
      · simp [hocc, hnil]
      · simp [hocc]
  · intro hnil
    have hemp : issue.sprint.isEmpty = true := by simp [hnil]
    unfold process_issue_metrics
    dsimp only
    rw [if_pos hemp, if_neg (by norm_num : ¬(true = false))]
    exact ⟨_, rfl, by rw [hnil]; rfl⟩

/-- A concrete issue whose selected sprint's goal does not mention the team
filter. -/
def issueFiltered : Issue :=
  { key := "FIL-1"
    storyPoints := none
    created := monMidnight
    status := "Accepted"
    issuetype := "Story"
    sprint := [⟨"Iteration 01.06.25 Team X", some "Platform work"⟩]
    histories := [] }

/-- Witness for C6: the issue with a non-matching sprint goal is filtered
out. -/
theorem C6_team_filter_witness :
    process_issue_metrics issueFiltered FIELD_TEAM_FILTER_VALUE monNoon = none :=
  (C6_team_filter issueFiltered FIELD_TEAM_FILTER_VALUE monNoon).1.mpr
    ⟨by decide, by decide⟩

/-! ### C7: throughput/efficiency score curves -/

/-- The throughput curve as a function of the ratio `actual / median`. -/
def tpCurve (x : ℚ) : ℚ :=
  if x ≤ 0 then 0
  else if 1 ≤ x then min 100 (70 + (x - 1) * 100)
  else 70 * x

/-- The efficiency curve as a function of the ratio `actual / median`. -/
def effCurve (x : ℚ) : ℚ :=
  if x ≤ 0 then 0
  else if x ≤ 1 then min 100 (70 + (1 - x) * 100)
  else 70 / x

/-- For a positive median the throughput score is the curve of the ratio. -/
theorem tp_eq_curve (m a : ℚ) (hm : 0 < m) :
    calc_throughput_score (some m) a = tpCurve (a / m) := by
  unfold calc_throughput_score tpCurve
  have hc1 : (a ≤ 0 ∨ m ≤ 0) ↔ a / m ≤ 0 := by
    rw [div_le_iff hm]
    constructor
    · rintro (h | h)
      · nlinarith
      · nlinarith
    · intro h
      left
      nlinarith
  have hc2 : (m ≤ a) ↔ (1 ≤ a / m) := by
    rw [le_div_iff hm]
    constructor <;> intro h <;> nlinarith
  simp only [hc1, hc2]
  norm_num [EXCELLENCE_SCORE, MEDIAN_BASELINE_SCORE]

/-- For a positive median the efficiency score is the curve of the ratio. -/
theorem eff_eq_curve (m a : ℚ) (hm : 0 < m) :
    calc_efficiency_score (some m) a = effCurve (a / m) := by
  unfold calc_efficiency_score effCurve
  have hc1 : (a ≤ 0 ∨ m ≤ 0) ↔ a / m ≤ 0 := by
    rw [div_le_iff hm]
    constructor
    · rintro (h | h)
      · nlinarith
      · nlinarith
    · intro h
      left
      nlinarith
  have hc2 : (a ≤ m) ↔ (a / m ≤ 1) := (div_le_one hm).symm
  have hval : MEDIAN_BASELINE_SCORE * (m / a) = 70 / (a / m) := by
    rw [div_div_eq_mul_div, mul_div_assoc]
    norm_num [MEDIAN_BASELINE_SCORE]
  simp only [hc1, hc2, hval]
  norm_num [EXCELLENCE_SCORE, MEDIAN_BASELINE_SCORE]

/-- The throughput curve is monotone. -/
theorem tpCurve_mono {x y : ℚ} (hxy : x ≤ y) : tpCurve x ≤ tpCurve y := by
  unfold tpCurve
  rcases le_or_lt x 0 with hx0 | hx0
  · rw [if_pos hx0]
    rcases le_or_lt y 0 with hy0 | hy0
    · rw [if_pos hy0]
    · rw [if_neg (not_le.mpr hy0)]
      rcases le_or_lt 1 y with hy1 | hy1
      · rw [if_pos hy1]
        exact le_min (by norm_num) (by nlinarith)
      · rw [if_neg (not_le.mpr hy1)]
        nlinarith
  · have hy0 : 0 < y := lt_of_lt_of_le hx0 hxy
    rw [if_neg (not_le.mpr hx0), if_neg (not_le.mpr hy0)]
    rcases le_or_lt 1 x with hx1 | hx1
    · have hy1 : 1 ≤ y := le_trans hx1 hxy
      rw [if_pos hx1, if_pos hy1]
      exact min_le_min (le_refl 100) (by nlinarith)
    · rw [if_neg (not_le.mpr hx1)]
      rcases le_or_lt 1 y with hy1 | hy1
      · rw [if_pos hy1]
        exact le_min (by nlinarith) (by nlinarith)
      · rw [if_neg (not_le.mpr hy1)]
        nlinarith

/-- The efficiency curve is antitone on positive ratios. -/
theorem effCurve_anti {x y : ℚ} (hx : 0 < x) (hxy : x ≤ y) : effCurve y ≤ effCurve x := by
  unfold effCurve
  have hy : 0 < y := lt_of_lt_of_le hx hxy
  rw [if_neg (not_le.mpr hx), if_neg (not_le.mpr hy)]
  rcases le_or_lt y 1 with hy1 | hy1
  · have hx1 : x ≤ 1 := le_trans hxy hy1
    rw [if_pos hx1, if_pos hy1]
    exact min_le_min (le_refl 100) (by nlinarith)
  · rw [if_neg (not_le.mpr hy1)]
    rcases le_or_lt x 1 with hx1 | hx1
    · rw [if_pos hx1]
      have h70 : 70 / y ≤ 70 := by
        rw [div_le_iff hy]
        nlinarith
      exact le_min (by linarith) (by nlinarith)
    · rw [if_neg (not_le.mpr hx1)]
      rw [div_le_div_iff hy hx]
      nlinarith

/-- The throughput curve lies in `[0, 100]`. -/
theorem tpCurve_bounds (x : ℚ) : 0 ≤ tpCurve x ∧ tpCurve x ≤ 100 := by
  unfold tpCurve
  split_ifs with h1 h2
  · norm_num
  · exact ⟨le_min (by norm_num) (by nlinarith), min_le_left _ _⟩
  · push_neg at h1 h2
    constructor <;> nlinarith

/-- The efficiency curve lies in `[0, 100]`. -/
theorem effCurve_bounds (x : ℚ) : 0 ≤ effCurve x ∧ effCurve x ≤ 100 := by
  unfold effCurve
  split_ifs with h1 h2
  · norm_num
  · exact ⟨le_min (by norm_num) (by nlinarith), min_le_left _ _⟩
  · push_neg at h1 h2
    constructor
    · positivity
    · rw [div_le_iff h1]
      nlinarith

/-- C7 (amended): for a fixed positive median the throughput score is
monotonically non-decreasing in the completed-ticket count everywhere, the
efficiency score is monotonically non-increasing on **positive** cycle times
(a zero or negative cycle time scores 0, below any positive-time score, so
the claimed monotonicity fails only there), and both scores always lie in
`[0, 100]`. -/
theorem C7_score_monotone_bounded :
    (∀ m a b : ℚ, 0 < m → a ≤ b →
      calc_throughput_score (some m) a ≤ calc_throughput_score (some m) b) ∧
    (∀ m a b : ℚ, 0 < m → 0 < a → a ≤ b →
      calc_efficiency_score (some m) b ≤ calc_efficiency_score (some m) a) ∧
    (∀ m a : ℚ, 0 < m →
      0 ≤ calc_throughput_score (some m) a ∧ calc_throughput_score (some m) a ≤ 100 ∧
      0 ≤ calc_efficiency_score (some m) a ∧ calc_efficiency_score (some m) a ≤ 100) := by
  refine ⟨fun m a b hm hab => ?_, fun m a b hm ha hab => ?_, fun m a hm => ?_⟩
  · rw [tp_eq_curve m a hm, tp_eq_curve m b hm]
    exact tpCurve_mono (by gcongr)
  · rw [eff_eq_curve m a hm, eff_eq_curve m b hm]
    exact effCurve_anti (div_pos ha hm) (by gcongr)
  · rw [tp_eq_curve m a hm, eff_eq_curve m a hm]
    exact ⟨(tpCurve_bounds _).1, (tpCurve_bounds _).2, (effCurve_bounds _).1,
      (effCurve_bounds _).2⟩

/-- C7 (counterexample to the claim as stated): with median cycle time 1, a
cycle time of 0 is ≤ 1 yet scores 0 while 1 scores 70, so the efficiency
score is not a monotonically non-increasing function of the cycle time on all
inputs. -/
theorem C7_efficiency_counterexample :
    (0 : ℚ) ≤ 1 ∧
      calc_efficiency_score (some 1) 0 < calc_efficiency_score (some 1) 1 := by
  constructor
  · norm_num
  · norm_num [calc_efficiency_score, EXCELLENCE_SCORE, MEDIAN_BASELINE_SCORE]

/-- Witness for C7 at median 2, counts 3 and 5, cycle times 3 and 5. -/
theorem C7_score_monotone_bounded_witness :
    calc_throughput_score (some 2) 3 ≤ calc_throughput_score (some 2) 5 ∧
      calc_efficiency_score (some 2) 5 ≤ calc_efficiency_score (some 2) 3 ∧
      (0 ≤ calc_throughput_score (some 2) 3 ∧ calc_throughput_score (some 2) 3 ≤ 100 ∧
        0 ≤ calc_efficiency_score (some 2) 3 ∧ calc_efficiency_score (some 2) 3 ≤ 100) :=
  ⟨C7_score_monotone_bounded.1 2 3 5 (by norm_num) (by norm_num),
    C7_score_monotone_bounded.2.1 2 3 5 (by norm_num) (by norm_num) (by norm_num),
    C7_score_monotone_bounded.2.2 2 3 (by norm_num)⟩

/-! ### C1/C8: properties of the dashboard output -/

/-- `dle` is transitive. -/
theorem dle_trans {a b c : Option ℤ} (h1 : dle a b = true) (h2 : dle b c = true) :
    dle a c = true := by
  cases a <;> cases b <;> cases c <;> simp_all [dle] <;> omega

/-- A strict date below a weak upper bound stays strict. -/
theorem dlt_of_dlt_of_dle {a b c : Option ℤ} (h1 : dlt a b = true) (h2 : dle b c = true) :
    dlt a c = true := by
  cases a <;> cases b <;> cases c <;> simp_all [dlt, dle] <;> omega

/-- A strictly smaller date is distinct. -/
theorem dlt_ne {a b : Option ℤ} (h : dlt a b = true) : a ≠ b := by
  cases a <;> cases b <;> simp_all [dlt] <;> omega

/-- Both arguments are below their `dmax`. -/
theorem dle_dmax_left (a b : Option ℤ) : dle a (dmax a b) = true := by
  unfold dmax
  split_ifs with h
  · exact h
  · exact dle_refl a

/-- Both arguments are below their `dmax`. -/
theorem dle_dmax_right (a b : Option ℤ) : dle b (dmax a b) = true := by
  unfold dmax
  split_ifs with h
  · exact dle_refl b
  · cases a <;> cases b <;> simp_all [dle] <;> omega

/-- `dmax` of two bounded dates is bounded. -/
theorem dmax_le {a b c : Option ℤ} (h1 : dle a c = true) (h2 : dle b c = true) :
    dle (dmax a b) c = true := by
  unfold dmax
  split_ifs <;> assumption

/-- A running `dmax` fold only grows. -/
theorem dle_foldl_dmax_init (f : α → Option ℤ) (l : List α) (init : Option ℤ) :
    dle init (l.foldl (fun acc r => dmax acc (f r)) init) = true := by
  induction l generalizing init with
  | nil => exact dle_refl init
  | cons a l ih =>
    exact dle_trans (dle_dmax_left init (f a)) (ih (dmax init (f a)))

/-- Every member's date is below the running `dmax` fold. -/
theorem dle_foldl_dmax_mem (f : α → Option ℤ) (l : List α) :
    ∀ (init : Option ℤ) {x : α}, x ∈ l →
      dle (f x) (l.foldl (fun acc r => dmax acc (f r)) init) = true := by
  induction l with
  | nil => intro init x hx; cases hx
  | cons a l ih =>
    intro init x hx
    rcases List.mem_cons.mp hx with rfl | hmem
    · exact dle_trans (dle_dmax_right init (f x)) (dle_foldl_dmax_init f l _)
    · exact ih _ hmem

/-- A `dmax` fold over bounded dates is bounded. -/
theorem foldl_dmax_le (f : α → Option ℤ) (l : List α) {B : Option ℤ} :
    (∀ x ∈ l, dle (f x) B = true) →
      ∀ (init : Option ℤ), dle init B = true →
        dle (l.foldl (fun acc r => dmax acc (f r)) init) B = true := by
  induction l with
  | nil => exact fun _ init hinit => hinit
  | cons a l ih =>
    intro h init hinit
    exact ih (fun x hx => h x (List.mem_cons_of_mem a hx)) _
      (dmax_le hinit (h a (List.mem_cons_self a l)))

/-- `dedupFirst` only keeps original elements. -/
theorem mem_dedupFirst [DecidableEq α] {l : List α} {x : α} :
    x ∈ dedupFirst l → x ∈ l := by
  induction l with
  | nil => intro h; cases h
  | cons a l ih =>
    intro h
    rcases List.mem_cons.mp h with rfl | hmem
    · exact List.mem_cons_self x l
    · exact List.mem_cons_of_mem a (ih (List.mem_filter.mp hmem).1)

/-- Rows produced by `mergeFlow` keep the sprint name. -/
theorem mergeFlow_name (flow_df : List FlowRow) (r : DashRow) {x : DashRow}
    (hx : x ∈ mergeFlow flow_df r) : x.sprintName = r.sprintName := by
  unfold mergeFlow at hx
  dsimp only at hx
  split_ifs at hx
  · rcases List.mem_singleton.mp hx with rfl
    rfl
  · rcases List.mem_map.mp hx with ⟨f, _, rfl⟩
    rfl

/-- `scoreRow` keeps the sprint name. -/
theorem scoreRow_name (mt mc : Option ℚ) (r : DashRow) :
    (scoreRow mt mc r).sprintName = r.sprintName := rfl

/-- Bug-count rows are named after some input row's sprint. -/
theorem bugCounts_name_origin (metrics_df : List ItemRecord) {p : String × ℕ}
    (hp : p ∈ count_bugs_created_in_sprint_periods metrics_df) :
    ∃ rin ∈ metrics_df, p.1 = rin.sprintName := by
  unfold count_bugs_created_in_sprint_periods at hp
  dsimp only at hp
  rcases List.mem_map.mp hp with ⟨q, hq, rfl⟩
  have hq2 := (sortStable_perm _ _).mem_iff.mp hq
  have hq3 := (List.mem_filter.mp hq2).1
  have hq4 := mem_dedupFirst hq3
  rcases List.mem_map.mp hq4 with ⟨rin, hrin, rfl⟩
  exact ⟨rin, hrin, rfl⟩

/-- Every dashboard row is named after some input row's sprint. -/
theorem calcDashboardRows_name_origin (metrics_df : List ItemRecord)
    (flow_df : List FlowRow) {out : DashRow}
    (hout : out ∈ calcDashboardRows metrics_df flow_df) :
    ∃ rin ∈ metrics_df, out.sprintName = rin.sprintName := by
  unfold calcDashboardRows at hout
  dsimp only at hout
  rcases List.mem_map.mp hout with ⟨r3, h3, rfl⟩
  rcases List.mem_map.mp h3 with ⟨r2, h2, rfl⟩
  rcases List.mem_flatMap.mp h2 with ⟨rb, hb, hmem⟩
  rcases List.mem_map.mp hb with ⟨k, hk, rfl⟩
  have hname : r2.sprintName = k := mergeFlow_name _ _ hmem
  have hkmem := mem_dedupFirst hk
  rcases List.mem_append.mp hkmem with hk2 | hk3
  · rcases List.mem_append.mp hk2 with hk4 | hk4
    · rcases List.mem_map.mp hk4 with ⟨rin, hrin, rfl⟩
      refine ⟨rin, List.mem_of_mem_filter (List.mem_of_mem_filter hrin), ?_⟩
      show r2.sprintName = rin.sprintName
      exact hname
    · rcases List.mem_map.mp hk4 with ⟨rin, hrin, rfl⟩
      refine ⟨rin, List.mem_of_mem_filter (List.mem_of_mem_filter hrin), ?_⟩
      show r2.sprintName = rin.sprintName
      exact hname
  · rcases List.mem_map.mp hk3 with ⟨p, hp, rfl⟩
    rcases bugCounts_name_origin metrics_df hp with ⟨rin, hrin, hpn⟩
    refine ⟨rin, hrin, ?_⟩
    show r2.sprintName = rin.sprintName
    exact hname.trans hpn

/-- C1: in any run whose records cover at least two sprints with distinct
parsed start dates, no output row of `calculate_scores` is named after a
sprint whose parsed start date is the maximum parsed start date over all
input records (the active sprint) — the final filter removes it even though
its rows re-enter the dashboard through the unfiltered bug-count pass. -/
theorem C1_active_sprint_excluded (rows : List ItemRecord) (flow : List FlowRow)
    (r1 r2 : ItemRecord) (h1 : r1 ∈ rows) (h2 : r2 ∈ rows)
    (hne : parse_sprint_date r1.sprintName ≠ parse_sprint_date r2.sprintName) :
    ∀ out ∈ calculate_scores rows flow,
      parse_sprint_date out.sprintName ≠ maxStartDate rows := by
  intro out hout
  unfold calculate_scores at hout
  dsimp only at hout
  rcases List.mem_filter.mp hout with ⟨hmem, hpred⟩
  have hbound : dle
      (maxDashDate (sortStable
        (fun a b => dle (parse_sprint_date b.sprintName) (parse_sprint_date a.sprintName))
        (calcDashboardRows rows flow)))
      (maxStartDate rows) = true := by
    unfold maxDashDate maxStartDate
    apply foldl_dmax_le _ _ ?_ none rfl
    intro x hx
    have hx2 := (sortStable_perm _ _).mem_iff.mp hx
    rcases calcDashboardRows_name_origin rows flow hx2 with ⟨rin, hrin, hname⟩
    rw [hname]
    exact dle_foldl_dmax_mem (fun r : ItemRecord => parse_sprint_date r.sprintName)
      rows none hrin
  exact dlt_ne (dlt_of_dlt_of_dle hpred hbound)

/-- Two records in distinct sprints (2025-01-06 and 2025-01-13). -/
def recSprintA : ItemRecord :=
  { issueKey := "A-1"
    issueType := "Story"
    storyPoints := 3
    sprintName := "Iteration 01.06.25 Foundation"
    daysInProgress := 2
    devCycleTime := 1
    reviewCycleTime := 1
    acceptanceCycleTime := 0
    rejectionCount := 0
    reachedDelivered := 1
    status := "Accepted"
    timestamp := 0
    wasRejected := false
    createdDate := some monMidnight
    sprintStartDate := some (daysFromCivil 2025 1 6) }

/-- The newer-sprint record of the C1 witness run. -/
def recSprintB : ItemRecord :=
  { issueKey := "B-1"
    issueType := "Bug"
    storyPoints := 2
    sprintName := "Iteration 01.13.25 Foundation"
    daysInProgress := 1
    devCycleTime := 1
    reviewCycleTime := 0
    acceptanceCycleTime := 0
    rejectionCount := 0
    reachedDelivered := 1
    status := "Accepted"
    timestamp := 0
    wasRejected := false
    createdDate := some tueMidnight
    sprintStartDate := some (daysFromCivil 2025 1 13) }

/-- Witness for C1: the two-sprint run (with distinct parsed dates, as the
first conjunct checks concretely) never emits the newer sprint. -/
theorem C1_active_sprint_excluded_witness :
    (recSprintA ∈ [recSprintA, recSprintB] ∧ recSprintB ∈ [recSprintA, recSprintB] ∧
      parse_sprint_date recSprintA.sprintName ≠ parse_sprint_date recSprintB.sprintName) ∧
    ∀ out ∈ calculate_scores [recSprintA, recSprintB] [],
      parse_sprint_date out.sprintName ≠ maxStartDate [recSprintA, recSprintB] :=
  ⟨⟨List.mem_cons_self _ _, List.mem_cons_of_mem _ (List.mem_cons_self _ _), by decide⟩,
    C1_active_sprint_excluded [recSprintA, recSprintB] [] recSprintA recSprintB
      (List.mem_cons_self _ _) (List.mem_cons_of_mem _ (List.mem_cons_self _ _))
      (by decide)⟩

set_option maxHeartbeats 2000000 in
/-- C8: every output row's final composite index is the weighted sum of its
velocity, quality and flow scores with the configured weights 0.60/0.25/0.15,
rounded to one decimal place; and the formula at velocity 80, quality 90,
flow 70 yields exactly 81. -/
theorem C8_final_index (rows : List ItemRecord) (flow : List FlowRow) :
    (calculate_scores rows flow).Forall (fun row =>
      row.finalIndex = roundTo 1 (row.velocityScore * WEIGHT_VELOCITY +
        row.qualityScore * WEIGHT_QUALITY + row.flowScore * WEIGHT_FLOW)) ∧
    roundTo 1 ((80 : ℚ) * WEIGHT_VELOCITY + (90 : ℚ) * WEIGHT_QUALITY +
      (70 : ℚ) * WEIGHT_FLOW) = 81 := by
  constructor
  · rw [List.forall_iff_forall_mem]
    intro out hout
    unfold calculate_scores at hout
    dsimp only at hout
    rcases List.mem_filter.mp hout with ⟨hmem, _⟩
    have hsm := (sortStable_perm _ _).mem_iff.mp hmem
    unfold calcDashboardRows at hsm
    dsimp only at hsm
    rcases List.mem_map.mp hsm with ⟨r2, _, rfl⟩
    unfold scoreRow
    dsimp only
    congr 1
    ring
  · norm_num [roundTo, WEIGHT_VELOCITY, WEIGHT_QUALITY, WEIGHT_FLOW, round_eq]

/-! ### C10: frame effect of `calculate_scores` on the caller's table -/

/-- `setColC` leaves every other column untouched. -/
theorem getColC_setColC_ne (df : DataFrameC) (n : String) (v : List Cell)
    {c : String} (hc : c ≠ n) : getColC (setColC df n v) c = getColC df c := by
  induction df with
  | nil =>
    unfold setColC getColC
    simp [List.find?, hc.symm]
  | cons p rest ih =>
    unfold setColC
    split_ifs with hp
    · unfold getColC
      simp only [List.find?]
      have h1 : (decide ((n, v).1 = c)) = false := by
        simp
        exact fun h => hc h.symm
      have h2 : (decide (p.1 = c)) = false := by
        simp
        rw [hp]
        exact fun h => hc h.symm
      rw [h1, h2]
    · unfold getColC
      simp only [List.find?]
      by_cases hpc : p.1 = c
      · simp [hpc]
      · simp only [decide_eq_false hpc]
        exact ih

/-- C10 (amended): `calculate_scores` does mutate the caller's metrics table,
but only by overwriting the `Sprint Start Date` column with parsed dates and
appending a `Created Date Parsed` column; every other column keeps exactly
its value. -/
theorem C10_input_mutation (df : DataFrameC) (c : String)
    (hc1 : c ≠ "Sprint Start Date") (hc2 : c ≠ "Created Date Parsed") :
    getColC (calculate_scores_input_after df) c = getColC df c := by
  unfold calculate_scores_input_after
  dsimp only
  rw [getColC_setColC_ne _ _ _ hc2, getColC_setColC_ne _ _ _ hc1]

/-- The metrics table of a one-record run, as the processor emits it
(fifteen columns). -/
def dfC10 : DataFrameC :=
  [ ("Issue Key", [Cell.cs "A-1"]),
    ("Issue Type", [Cell.cs "Story"]),
    ("Story Points", [Cell.cq 3]),
    ("Sprint Name", [Cell.cs "Iteration 01.06.25 Foundation"]),
    ("Days In Progress", [Cell.cq 2]),
    ("Dev Cycle Time", [Cell.cq 1]),
    ("Review Cycle Time", [Cell.cq 1]),
    ("Acceptance Cycle Time", [Cell.cq 0]),
    ("Rejection Count", [Cell.cz 0]),
    ("Reached Delivered", [Cell.cz 1]),
    ("Status", [Cell.cs "Accepted"]),
    ("Timestamp", [Cell.cs "2025-01-07T10:00:00"]),
    ("Was Rejected?", [Cell.cs "No"]),
    ("Created Date", [Cell.cnone]),
    ("Sprint Start Date", [Cell.cs "2025-01-06T00:00:00"]) ]

/-- C10 (counterexample): after `calculate_scores` the caller's table is not
the one it passed in — a `Created Date Parsed` column has appeared (and the
`Sprint Start Date` strings were replaced by parsed dates). -/
theorem C10_counterexample : calculate_scores_input_after dfC10 ≠ dfC10 := by
  intro h
  have hcols := congrArg (List.map Prod.fst) h
  exact absurd hcols (by decide)

/-- Witness for C10 at the one-record table and the `Issue Key` column. -/
theorem C10_input_mutation_witness :
    ("Issue Key" ≠ "Sprint Start Date") ∧ ("Issue Key" ≠ "Created Date Parsed") ∧
      getColC (calculate_scores_input_after dfC10) "Issue Key" = getColC dfC10 "Issue Key" :=
  ⟨by decide, by decide, C10_input_mutation dfC10 "Issue Key" (by decide) (by decide)⟩
